import Mathlib

/-!
Verification development for two modules of a Q&A web application:
the activity-timeline service (internal/service/activity/activity.go) and
the tag repository (a tag package data-access layer over one relational
table).  The relational store is embedded as a list of tag rows; each
repository operation is a pure function of that list (reads also return the
list unchanged, reflecting that they issue no update statement), and the
collaborating services of the activity module are an explicit environment of
fallible functions.
-/

namespace Answer

/-- Status value of a tag row that normal reads accept.  Modelled from the
spec: the entity package is not among the sources; the spec gives the status
column the two values available and deleted, modelled as distinct codes. -/
def TagStatusAvailable : Nat := 1

/-- Status value of a soft-deleted tag row.  Modelled from the spec, see
`TagStatusAvailable`. -/
def TagStatusDeleted : Nat := 10

/-- Row of the tag table (entity.Tag): the columns this repository reads and
writes.  Field defaults are the Go zero values, used for condition beans. -/
structure Tag where
  id : String := ""
  slugName : String := ""
  displayName : String := ""
  originalText : String := ""
  mainTagID : Int := 0
  mainTagSlugName : String := ""
  recommend : Bool := false
  reserved : Bool := false
  status : Nat := 0
  questionCount : Int := 0
  revisionID : String := ""
  createdAt : Nat := 0
deriving Repr, DecidableEq

/-- Site write configuration as returned by siteInfoService.GetSiteWrite. -/
structure SiteInfoWrite where
  requiredTag : Bool
deriving Repr, DecidableEq

/-- Result of the site-configuration read the repository consults. -/
abbrev SiteCfg := Except String SiteInfoWrite

/-- tagRecommendStatus: reads the site write configuration; an error is
logged and false is returned, otherwise the RequiredTag flag is returned. -/
def tagRecommendStatus (cfg : SiteCfg) : Bool :=
  match cfg with
  | Except.error _ => false
  | Except.ok c => c.requiredTag

/-- Read-time override of one fetched row: when the site does not require
tags, the recommend flag is forced to false. -/
def maskTag (required : Bool) (t : Tag) : Tag :=
  if required then t else { t with recommend := false }

/-- Read-time override of every fetched row: the loop after each query that
forces recommend to false when the site does not require tags. -/
def maskRecommend (required : Bool) (l : List Tag) : List Tag :=
  if required then l else l.map (fun t => { t with recommend := false })

/-- Sort key of ORDER BY "recommend desc,reserved desc,id desc": the boolean
columns are negated so that ascending lexicographic order puts true first,
and the id component is dualised for its descending direction. -/
def rriKey (t : Tag) : Lex (Bool × Lex (Bool × OrderDual String)) :=
  toLex (!t.recommend, toLex (!t.reserved, OrderDual.toDual t.id))

/-- Row order of ORDER BY "recommend desc,reserved desc,id desc". -/
def rriLe (a b : Tag) : Prop := rriKey a ≤ rriKey b

instance : DecidableRel rriLe := fun a b =>
  inferInstanceAs (Decidable (rriKey a ≤ rriKey b))

instance : IsTotal Tag rriLe := ⟨fun a b => le_total (rriKey a) (rriKey b)⟩

instance : IsTrans Tag rriLe := ⟨fun _ _ _ h h2 => le_trans h h2⟩

/-- Sort key of GetTagListByName, where Asc("slug_name") precedes the
OrderBy("recommend desc,reserved desc,id desc") call. -/
def nameKey (t : Tag) : Lex (String × Lex (Bool × Lex (Bool × OrderDual String))) :=
  toLex (t.slugName, rriKey t)

/-- Row order of GetTagListByName: slug name ascending first. -/
def nameLe (a b : Tag) : Prop := nameKey a ≤ nameKey b

instance : DecidableRel nameLe := fun a b =>
  inferInstanceAs (Decidable (nameKey a ≤ nameKey b))

instance : IsTotal Tag nameLe := ⟨fun a b => le_total (nameKey a) (nameKey b)⟩

instance : IsTrans Tag nameLe := ⟨fun _ _ _ h h2 => le_trans h h2⟩

/-- Row order of Asc("slug_name"). -/
def slugLe (a b : Tag) : Prop := a.slugName ≤ b.slugName

instance : DecidableRel slugLe := fun a b =>
  inferInstanceAs (Decidable (a.slugName ≤ b.slugName))

instance : IsTotal Tag slugLe := ⟨fun a b => le_total a.slugName b.slugName⟩

instance : IsTrans Tag slugLe := ⟨fun _ _ _ h h2 => le_trans h h2⟩

/-- Row order of Desc("question_count"). -/
def popLe (a b : Tag) : Prop := b.questionCount ≤ a.questionCount

instance : DecidableRel popLe := fun a b =>
  inferInstanceAs (Decidable (b.questionCount ≤ a.questionCount))

instance : IsTotal Tag popLe := ⟨fun a b => le_total b.questionCount a.questionCount⟩

instance : IsTrans Tag popLe := ⟨fun _ _ _ h h2 => le_trans h2 h⟩

/-- Row order of Desc("created_at"). -/
def newestLe (a b : Tag) : Prop := b.createdAt ≤ a.createdAt

instance : DecidableRel newestLe := fun a b =>
  inferInstanceAs (Decidable (b.createdAt ≤ a.createdAt))

instance : IsTotal Tag newestLe := ⟨fun a b => le_total b.createdAt a.createdAt⟩

instance : IsTrans Tag newestLe := ⟨fun _ _ _ h h2 => le_trans h2 h⟩

/-- Test that pattern occurs somewhere inside s: the semantics of the SQL
LIKE predicate with wildcards on both sides that builder.Like produces. -/
def likeContains (s pattern : String) : Bool :=
  (List.range (s.toList.length + 1)).any
    (fun i => pattern.toList.isPrefixOf (s.toList.drop i))

/-- Predicate a string field of a condition bean contributes: equality when
the bean's value is non-zero, nothing otherwise. -/
def zmatchS (c v : String) : Bool := c == "" || v == c

/-- Predicate an integer field of a condition bean contributes. -/
def zmatchI (c v : Int) : Bool := c == 0 || v == c

/-- Predicate a natural-number field of a condition bean contributes. -/
def zmatchN (c v : Nat) : Bool := c == 0 || v == c

/-- Condition-bean matching used by Find and by the pager: every non-zero
non-boolean field of the bean becomes an equality predicate; boolean fields
are ignored unless named in a UseBool call. -/
def condMatch (c t : Tag) : Bool :=
  zmatchS c.id t.id && zmatchS c.slugName t.slugName &&
    zmatchS c.displayName t.displayName && zmatchS c.originalText t.originalText &&
    zmatchI c.mainTagID t.mainTagID && zmatchS c.mainTagSlugName t.mainTagSlugName &&
    zmatchI c.questionCount t.questionCount && zmatchS c.revisionID t.revisionID &&
    zmatchN c.createdAt t.createdAt && zmatchN c.status t.status

/-- GetTagListByIDs: rows whose id is in the set and whose status is
available, ordered by recommend desc, reserved desc, id desc, with the
recommend mask applied; the storage is returned unchanged (no update). -/
def GetTagListByIDs (ids : List String) (cfg : SiteCfg) (db : List Tag) :
    List Tag × List Tag :=
  let rows := List.insertionSort rriLe
    (db.filter (fun t => decide (t.id ∈ ids ∧ t.status = TagStatusAvailable)))
  (maskRecommend (tagRecommendStatus cfg) rows, db)

/-- GetTagBySlugName: first row with the given slug name and available
status, with the recommend mask applied. -/
def GetTagBySlugName (slugName : String) (cfg : SiteCfg) (db : List Tag) :
    Option Tag × List Tag :=
  let found := db.find?
    (fun t => decide (t.slugName = slugName ∧ t.status = TagStatusAvailable))
  (found.map (maskTag (tagRecommendStatus cfg)), db)

/-- GetTagListByName: when name is non-empty the WHERE clause carries the
pattern slug_name LIKE name% and the condition bean keeps Recommend false;
when name is empty the bean carries Recommend true.  UseBool("recommend") is
in force in both branches, so the bean's recommend value is always a
predicate; the Reserved-false predicate is added only when hasReserved is
false.  Always restricted to available status, ordered by slug_name asc then
recommend desc, reserved desc, id desc, capped at limit, masked. -/
def GetTagListByName (name : String) (limit : Nat) (hasReserved : Bool)
    (cfg : SiteCfg) (db : List Tag) : List Tag × List Tag :=
  let rows := (List.insertionSort nameLe
    (db.filter (fun t => decide (
      (name ≠ "" → name.toList.isPrefixOf t.slugName.toList = true) ∧
      t.recommend = decide (name = "") ∧
      (hasReserved = false → t.reserved = false) ∧
      t.status = TagStatusAvailable)))).take limit
  (maskRecommend (tagRecommendStatus cfg) rows, db)

/-- GetRecommendTagList: rows flagged recommend, with no status predicate
(that line is commented out in the source), slug name ascending, masked. -/
def GetRecommendTagList (cfg : SiteCfg) (db : List Tag) : List Tag × List Tag :=
  let rows := List.insertionSort slugLe (db.filter (fun t => t.recommend))
  (maskRecommend (tagRecommendStatus cfg) rows, db)

/-- GetReservedTagList: rows flagged reserved, with no status predicate
(that line is commented out in the source), slug name ascending, masked. -/
def GetReservedTagList (cfg : SiteCfg) (db : List Tag) : List Tag × List Tag :=
  let rows := List.insertionSort slugLe (db.filter (fun t => t.reserved))
  (maskRecommend (tagRecommendStatus cfg) rows, db)

/-- GetTagListByNames: rows whose slug name is in the set, with no status
predicate (that line is commented out in the source), ordered by recommend
desc, reserved desc, id desc, masked. -/
def GetTagListByNames (names : List String) (cfg : SiteCfg) (db : List Tag) :
    List Tag × List Tag :=
  let rows := List.insertionSort rriLe
    (db.filter (fun t => decide (t.slugName ∈ names)))
  (maskRecommend (tagRecommendStatus cfg) rows, db)

/-- GetTagByID: first row with the given id and available status, masked. -/
def GetTagByID (tagID : String) (cfg : SiteCfg) (db : List Tag) :
    Option Tag × List Tag :=
  let found := db.find?
    (fun t => decide (t.id = tagID ∧ t.status = TagStatusAvailable))
  (found.map (maskTag (tagRecommendStatus cfg)), db)

/-- GetTagList: rows with available status matching the non-zero fields of
the condition bean, in storage order, masked. -/
def GetTagList (tag : Tag) (cfg : SiteCfg) (db : List Tag) :
    List Tag × List Tag :=
  let rows := db.filter
    (fun t => decide (t.status = TagStatusAvailable) && condMatch tag t)
  (maskRecommend (tagRecommendStatus cfg) rows, db)

/-- Ordering switch of GetTagPage; an unrecognised sort name adds no ORDER
BY clause. -/
def sortTagPage (queryCond : String) (l : List Tag) : List Tag :=
  if queryCond = "popular" then List.insertionSort popLe l
  else if queryCond = "name" then List.insertionSort slugLe l
  else if queryCond = "newest" then List.insertionSort newestLe l
  else l

/-- GetTagPage: when the bean's SlugName is non-empty it becomes a LIKE
predicate on slug name or display name and the bean's SlugName is reset to
the empty string (mutating the caller's bean, returned here as the third
component); rows are restricted to available status and to main_tag_id = 0,
ordered by the sort switch, and paged.  pager.Help is not among the sources;
modelled from the spec: a paged listing returning page `page` of size
`pageSize` of the filtered ordered rows plus the total row count. -/
def GetTagPage (page pageSize : Nat) (tag : Tag) (queryCond : String)
    (cfg : SiteCfg) (db : List Tag) : (List Tag × Nat × Tag) × List Tag :=
  let slugPat := tag.slugName
  let tagAfter := if slugPat = "" then tag else { tag with slugName := "" }
  let rows := sortTagPage queryCond (db.filter (fun t =>
    (slugPat == "" || (likeContains t.slugName slugPat || likeContains t.displayName slugPat)) &&
    decide (t.status = TagStatusAvailable) && decide (t.mainTagID = 0) &&
    condMatch tagAfter t))
  let pageRows := (rows.drop ((page - 1) * pageSize)).take pageSize
  ((maskRecommend (tagRecommendStatus cfg) pageRows, rows.length, tagAfter), db)

/-- RemoveTag: UPDATE with the bean having status deleted as its only
non-zero field, under WHERE id = tagID: only the status column of matching
rows is written and no row is removed. -/
def RemoveTag (tagID : String) (db : List Tag) : List Tag :=
  db.map (fun t => if t.id = tagID then { t with status := TagStatusDeleted } else t)

/-- UpdateTagQuestionCount: UPDATE restricted by MustCols to the
question_count column of matching rows, so the value is written even when it
is zero. -/
def UpdateTagQuestionCount (tagID : String) (questionCount : Int) (db : List Tag) :
    List Tag :=
  db.map (fun t => if t.id = tagID then { t with questionCount := questionCount } else t)

/-- Object-type name of questions.  Modelled from the spec: the constant
package is not among the sources; the spec names the four object kinds, given
distinct string values here. -/
def QuestionObjectType : String := "question"

/-- Object-type name of answers.  Modelled from the spec, see
`QuestionObjectType`. -/
def AnswerObjectType : String := "answer"

/-- Object-type name of tags.  Modelled from the spec, see
`QuestionObjectType`. -/
def TagObjectType : String := "tag"

/-- Object-type name of comments.  Modelled from the spec, see
`QuestionObjectType`. -/
def CommentObjectType : String := "comment"

/-- Cancelled marker of an activity row (entity.ActivityCancelled).
Modelled from the spec: the entity package is not among the sources; the
cancelled flag needs one distinguished value. -/
def ActivityCancelled : Nat := 1

/-- Stored activity row (entity.Activity). -/
structure Activity where
  id : String := ""
  objectID : String := ""
  userID : String := ""
  activityType : Nat := 0
  revisionID : Int := 0
  cancelled : Nat := 0
  cancelledAt : Int := 0
  createdAt : Int := 0
deriving Repr, DecidableEq

/-- Resolved object information (title, type, linkage). -/
structure ObjInfo where
  title : String := ""
  objectType : String := ""
  questionID : String := ""
  answerID : String := ""
deriving Repr, DecidableEq

/-- Basic profile of a user. -/
structure UserBasicInfo where
  username : String := ""
  displayName : String := ""
deriving Repr, DecidableEq

/-- Resolved comment with its rendered text. -/
structure CommentInfo where
  parsedText : String := ""
deriving Repr, DecidableEq

/-- Stored revision: parent object id and opaque encoded content. -/
structure Revision where
  objectID : String := ""
  content : String := ""
deriving Repr, DecidableEq

/-- Tag reference inside a question revision payload. -/
structure QuestionRevTag where
  slugName : String := ""
deriving Repr, DecidableEq

/-- Decoded payload of a question revision (entity.QuestionWithTagsRevision):
the fields the service reads. -/
structure QuestionWithTagsRevision where
  title : String := ""
  originalText : String := ""
  tags : List QuestionRevTag := []
deriving Repr, DecidableEq

/-- Decoded payload of an answer revision (entity.Answer): the field the
service reads. -/
structure AnswerRevision where
  originalText : String := ""
deriving Repr, DecidableEq

/-- One rendered timeline entry (schema.ActObjectTimeline). -/
structure ActObjectTimeline where
  activityID : String := ""
  revisionID : String := ""
  createdAt : Int := 0
  cancelled : Bool := false
  cancelledAt : Int := 0
  objectID : String := ""
  objectType : String := ""
  activityType : String := ""
  username : String := ""
  userDisplayName : String := ""
  comment : String := ""
deriving Repr, DecidableEq

/-- Object summary of the timeline response (schema.ActObjectInfo). -/
structure ActObjectInfo where
  title : String := ""
  objectType : String := ""
  questionID : String := ""
  answerID : String := ""
deriving Repr, DecidableEq

/-- Timeline response (schema.GetObjectTimelineResp). -/
structure GetObjectTimelineResp where
  objectInfo : ActObjectInfo := {}
  timeline : List ActObjectTimeline := []
deriving Repr, DecidableEq

/-- One rendered revision snapshot (schema.ObjectTimelineDetail). -/
structure ObjectTimelineDetail where
  title : String := ""
  tags : List String := []
  originalText : String := ""
deriving Repr, DecidableEq

/-- Detail response holding the two snapshots to diff
(schema.GetObjectTimelineDetailResp). -/
structure GetObjectTimelineDetailResp where
  oldRevision : ObjectTimelineDetail := {}
  newRevision : ObjectTimelineDetail := {}
deriving Repr, DecidableEq

/-- Collaborators of the activity service: the activity-type key table
(config.ID2KeyMapping), object-info resolver, activity repository, user
resolver, comment resolver, revision store and the per-type JSON decoding of
revision content. -/
structure ActivityEnv where
  id2key : Nat → String
  getInfo : String → Except String ObjInfo
  getObjectAllActivity : String → Bool → Except String (List Activity)
  getUserBasicInfoByID : String → Except String (Bool × UserBasicInfo)
  getComment : String → Except String CommentInfo
  getRevision : String → Except String Revision
  decodeQuestion : String → Except String QuestionWithTagsRevision
  decodeAnswer : String → Except String AnswerRevision
  decodeTag : String → Except String Tag

/-- strings.Cut on the separator ".": the part before the first dot and the
part after it; with no dot the whole string is the first part. -/
def cutDot (s : String) : String × String :=
  let l := s.toList
  match l.dropWhile (fun c => c ≠ '.') with
  | [] => (String.mk (l.takeWhile (fun c => c ≠ '.')), "")
  | _ :: after => (String.mk (l.takeWhile (fun c => c ≠ '.')), String.mk after)

/-- formatActivity: voted_up, voted_down and accepted are hidden; vote_up
and vote_down are relabelled upvote and downvote; everything else passes
through unchanged. -/
def formatActivity (activityType : String) : Bool × String :=
  if activityType = "voted_up" ∨ activityType = "voted_down" ∨ activityType = "accepted" then
    (true, "")
  else if activityType = "vote_up" then (false, "upvote")
  else if activityType = "vote_down" then (false, "downvote")
  else (false, activityType)

/-- One rendered timeline entry built from an activity row and the resolved
user lookup result; a comment-object entry resolves the comment text, and a
comment resolution failure is logged and leaves the field empty. -/
def mkTimelineItem (env : ActivityEnv) (act : Activity) (r : Bool × UserBasicInfo) :
    ActObjectTimeline :=
  let parts := cutDot (env.id2key act.activityType)
  { activityID := act.id
    revisionID := toString act.revisionID
    createdAt := act.createdAt
    cancelled := decide (act.cancelled = ActivityCancelled)
    cancelledAt := if act.cancelled = ActivityCancelled then act.cancelledAt else 0
    objectID := act.objectID
    objectType := parts.1
    activityType := (formatActivity parts.2).2
    username := if r.1 then r.2.username else ""
    userDisplayName := if r.1 then r.2.displayName else ""
    comment :=
      if parts.1 = CommentObjectType then
        match env.getComment act.objectID with
        | Except.error _ => ""
        | Except.ok c => c.parsedText
      else "" }

/-- Loop body of GetObjectTimeline: hidden activity types are skipped before
any lookup; a user-lookup error aborts the whole call; otherwise the entry is
built and appended. -/
def buildTimeline (env : ActivityEnv) : List Activity → Except String (List ActObjectTimeline)
  | [] => Except.ok []
  | act :: rest =>
    if (formatActivity (cutDot (env.id2key act.activityType)).2).1 = true then
      buildTimeline env rest
    else
      match env.getUserBasicInfoByID act.userID with
      | Except.error e => Except.error e
      | Except.ok r =>
        match buildTimeline env rest with
        | Except.error e => Except.error e
        | Except.ok tl => Except.ok (mkTimelineItem env act r :: tl)

/-- GetObjectTimeline: resolve the object, load its activity rows, and
render the timeline entries. -/
def GetObjectTimeline (env : ActivityEnv) (objectID : String) (showVote : Bool) :
    Except String GetObjectTimelineResp :=
  match env.getInfo objectID with
  | Except.error e => Except.error e
  | Except.ok objInfo =>
    match env.getObjectAllActivity objectID showVote with
    | Except.error e => Except.error e
    | Except.ok activityList =>
      match buildTimeline env activityList with
      | Except.error e => Except.error e
      | Except.ok timeline =>
        Except.ok
          { objectInfo :=
              { title := objInfo.title
                objectType := objInfo.objectType
                questionID := objInfo.questionID
                answerID := objInfo.answerID }
            timeline := timeline }

/-- getOneObjectDetail: load the revision and its parent object (both
failures propagate), then decode the content by object type; a decode
failure or an unknown object type is logged and yields the empty detail
without error. -/
def getOneObjectDetail (env : ActivityEnv) (revisionID : String) :
    Except String ObjectTimelineDetail :=
  match env.getRevision revisionID with
  | Except.error e => Except.error e
  | Except.ok revision =>
    match env.getInfo revision.objectID with
    | Except.error e => Except.error e
    | Except.ok objInfo =>
      if objInfo.objectType = QuestionObjectType then
        match env.decodeQuestion revision.content with
        | Except.error _ => Except.ok { tags := [] }
        | Except.ok d =>
          Except.ok
            { title := d.title
              tags := d.tags.map (fun t => t.slugName)
              originalText := d.originalText }
      else if objInfo.objectType = AnswerObjectType then
        match env.decodeAnswer revision.content with
        | Except.error _ => Except.ok { tags := [] }
        | Except.ok d =>
          Except.ok { title := objInfo.title, tags := [], originalText := d.originalText }
      else if objInfo.objectType = TagObjectType then
        match env.decodeTag revision.content with
        | Except.error _ => Except.ok { tags := [] }
        | Except.ok d =>
          Except.ok { title := d.slugName, tags := [], originalText := d.originalText }
      else Except.ok { tags := [] }

/-- GetObjectTimelineDetail: render the two snapshots; a failure of either
identity load propagates. -/
def GetObjectTimelineDetail (env : ActivityEnv) (oldRevisionID newRevisionID : String) :
    Except String GetObjectTimelineDetailResp :=
  match getOneObjectDetail env oldRevisionID with
  | Except.error e => Except.error e
  | Except.ok o =>
    match getOneObjectDetail env newRevisionID with
    | Except.error e => Except.error e
    | Except.ok n => Except.ok { oldRevision := o, newRevision := n }

/-- Concrete configuration whose RequiredTag flag is off. -/
def cfgOff : SiteCfg := Except.ok { requiredTag := false }

/-- Concrete configuration whose RequiredTag flag is on. -/
def cfgOn : SiteCfg := Except.ok { requiredTag := true }

/-- Concrete available tag flagged recommend, with a non-zero question
count. -/
def tagGo : Tag :=
  { id := "t1", slugName := "go", displayName := "Go",
    recommend := true, status := TagStatusAvailable, questionCount := 7 }

/-- One-row storage. -/
def dbOne : List Tag := [tagGo]

/-- The row tagGo as the recommend mask returns it. -/
def tagGoMasked : Tag := { tagGo with recommend := false }

/-- The row tagGo after RemoveTag. -/
def tagGoDel : Tag := { tagGo with status := TagStatusDeleted }

/-- The row tagGo after UpdateTagQuestionCount with count zero. -/
def tagGoZero : Tag := { tagGo with questionCount := 0 }

/-- Concrete available tag with neither flag set. -/
def tagPlain : Tag := { id := "t4", slugName := "git", status := TagStatusAvailable }

/-- One-row storage holding tagPlain. -/
def dbPlain : List Tag := [tagPlain]

/-- Condition bean with only SlugName set. -/
def tagFoo : Tag := { slugName := "foo" }

/-- Concrete available canonical tag whose names contain "foo". -/
def tagFoonly : Tag :=
  { id := "t2", slugName := "foolish", displayName := "Foolish",
    status := TagStatusAvailable }

/-- One-row storage holding tagFoonly. -/
def dbFoo : List Tag := [tagFoonly]

/-- Concrete soft-deleted tag flagged both recommend and reserved. -/
def delTag : Tag :=
  { id := "t9", slugName := "golang", displayName := "Golang",
    recommend := true, reserved := true, status := TagStatusDeleted }

/-- Concrete object information of a question. -/
def infoQ : ObjInfo := { title := "T", objectType := "question", questionID := "q1" }

/-- Concrete activity row whose type key maps to question.edited. -/
def actEdit : Activity := { id := "a1", objectID := "q1", userID := "u1", activityType := 1 }

/-- User-lookup result of a user that does not exist. -/
def ubiAnon : Bool × UserBasicInfo := (false, {})

/-- Concrete revision whose content no decoder accepts. -/
def revQ : Revision := { objectID := "q1", content := "junk" }

/-- Environment in which the object and activity loads succeed but the user
lookup fails with a storage error. -/
def cexEnv : ActivityEnv :=
  { id2key := fun _ => "question.edited"
    getInfo := fun _ => Except.ok infoQ
    getObjectAllActivity := fun _ _ => Except.ok [actEdit]
    getUserBasicInfoByID := fun _ => Except.error "user lookup storage error"
    getComment := fun _ => Except.error "comment missing"
    getRevision := fun _ => Except.error "revision missing"
    decodeQuestion := fun _ => Except.error "bad payload"
    decodeAnswer := fun _ => Except.error "bad payload"
    decodeTag := fun _ => Except.error "bad payload" }

/-- Environment in which identity loads and the user lookup succeed (the
user does not exist), while the comment lookup and every decode fail. -/
def okEnv : ActivityEnv :=
  { id2key := fun _ => "question.edited"
    getInfo := fun _ => Except.ok infoQ
    getObjectAllActivity := fun _ _ => Except.ok [actEdit]
    getUserBasicInfoByID := fun _ => Except.ok ubiAnon
    getComment := fun _ => Except.error "comment missing"
    getRevision := fun _ => Except.ok revQ
    decodeQuestion := fun _ => Except.error "bad payload"
    decodeAnswer := fun _ => Except.error "bad payload"
    decodeTag := fun _ => Except.error "bad payload" }

theorem maskRecommend_eq_map (r : Bool) (l : List Tag) :
    maskRecommend r l = l.map (maskTag r) := by
  cases r
  · simp [maskRecommend, maskTag]
  · simp only [maskRecommend, maskTag, if_true]
    exact (List.map_id l).symm

theorem mem_maskRecommend {r : Bool} {l : List Tag} {t : Tag} :
    t ∈ maskRecommend r l ↔ ∃ s ∈ l, maskTag r s = t := by
  rw [maskRecommend_eq_map]
  exact List.mem_map

theorem length_maskRecommend (r : Bool) (l : List Tag) :
    (maskRecommend r l).length = l.length := by
  rw [maskRecommend_eq_map]
  exact List.length_map l _

theorem maskTag_false_recommend (t : Tag) : (maskTag false t).recommend = false := rfl

theorem maskTag_id (r : Bool) (t : Tag) : (maskTag r t).id = t.id := by
  cases r <;> rfl

theorem maskTag_slugName (r : Bool) (t : Tag) : (maskTag r t).slugName = t.slugName := by
  cases r <;> rfl

theorem maskTag_displayName (r : Bool) (t : Tag) :
    (maskTag r t).displayName = t.displayName := by
  cases r <;> rfl

theorem maskTag_status (r : Bool) (t : Tag) : (maskTag r t).status = t.status := by
  cases r <;> rfl

theorem maskTag_mainTagID (r : Bool) (t : Tag) :
    (maskTag r t).mainTagID = t.mainTagID := by
  cases r <;> rfl

theorem maskTag_reserved (r : Bool) (t : Tag) : (maskTag r t).reserved = t.reserved := by
  cases r <;> rfl

theorem mem_sortTagPage {q : String} {l : List Tag} {t : Tag} :
    t ∈ sortTagPage q l ↔ t ∈ l := by
  unfold sortTagPage
  split
  · exact List.mem_insertionSort _
  · split
    · exact List.mem_insertionSort _
    · split
      · exact List.mem_insertionSort _
      · exact Iff.rfl

theorem mem_of_mem_page {l : List Tag} {t : Tag} {n m : Nat}
    (h : t ∈ (l.drop n).take m) : t ∈ l :=
  ((List.take_sublist _ _).trans (List.drop_sublist _ _)).mem h

theorem recommend_of_mem_mask {l : List Tag} {t : Tag}
    (h : t ∈ maskRecommend false l) : t.recommend = false := by
  rcases mem_maskRecommend.1 h with ⟨s, _, rfl⟩
  rfl

/-- C2: with the site-wide tag-required flag read as false, every
tag-returning read of the repository (GetTagListByIDs, GetTagBySlugName,
GetTagListByName, GetRecommendTagList, GetReservedTagList, GetTagListByNames,
GetTagByID, GetTagList, GetTagPage) returns rows whose recommend field is
false regardless of the stored value, and each read leaves the storage
unchanged. -/
theorem tag_reads_mask_recommend (db : List Tag) (ids names : List String)
    (slug name tagID queryCond : String) (limit page pageSize : Nat)
    (hasReserved : Bool) (cond pcond : Tag) (cfg : SiteCfg)
    (hcfg : cfg = Except.ok { requiredTag := false }) :
    (∀ t ∈ (GetTagListByIDs ids cfg db).1, t.recommend = false) ∧
    (GetTagListByIDs ids cfg db).2 = db ∧
    (∀ t, (GetTagBySlugName slug cfg db).1 = some t → t.recommend = false) ∧
    (GetTagBySlugName slug cfg db).2 = db ∧
    (∀ t ∈ (GetTagListByName name limit hasReserved cfg db).1, t.recommend = false) ∧
    (GetTagListByName name limit hasReserved cfg db).2 = db ∧
    (∀ t ∈ (GetRecommendTagList cfg db).1, t.recommend = false) ∧
    (GetRecommendTagList cfg db).2 = db ∧
    (∀ t ∈ (GetReservedTagList cfg db).1, t.recommend = false) ∧
    (GetReservedTagList cfg db).2 = db ∧
    (∀ t ∈ (GetTagListByNames names cfg db).1, t.recommend = false) ∧
    (GetTagListByNames names cfg db).2 = db ∧
    (∀ t, (GetTagByID tagID cfg db).1 = some t → t.recommend = false) ∧
    (GetTagByID tagID cfg db).2 = db ∧
    (∀ t ∈ (GetTagList cond cfg db).1, t.recommend = false) ∧
    (GetTagList cond cfg db).2 = db ∧
    (∀ t ∈ (GetTagPage page pageSize pcond queryCond cfg db).1.1, t.recommend = false) ∧
    (GetTagPage page pageSize pcond queryCond cfg db).2 = db := by
  subst hcfg
  refine ⟨fun t ht => recommend_of_mem_mask ht, rfl, ?_, rfl,
    fun t ht => recommend_of_mem_mask ht, rfl,
    fun t ht => recommend_of_mem_mask ht, rfl,
    fun t ht => recommend_of_mem_mask ht, rfl,
    fun t ht => recommend_of_mem_mask ht, rfl, ?_, rfl,
    fun t ht => recommend_of_mem_mask ht, rfl,
    fun t ht => recommend_of_mem_mask ht, rfl⟩
  · intro t ht
    simp only [GetTagBySlugName] at ht
    rcases Option.map_eq_some'.1 ht with ⟨s, _, rfl⟩
    rfl
  · intro t ht
    simp only [GetTagByID] at ht
    rcases Option.map_eq_some'.1 ht with ⟨s, _, rfl⟩
    rfl

/-- C2 witness: the stored row tagGo has recommend true, yet with the flag
off the row GetTagListByIDs returns for it has recommend false. -/
theorem tag_reads_mask_recommend_witness : tagGoMasked.recommend = false :=
  (tag_reads_mask_recommend dbOne ["t1"] ["go"] "go" "" "t1" "name" 5 1 10 false
    {} {} cfgOff rfl).1 tagGoMasked (by decide)

/-- C10: when the site-configuration read fails, tagRecommendStatus returns
false, so every tag-returning read behaves exactly as with the flag read as
false: the error does not propagate, and the returned rows have recommend
forced to false. -/
theorem cfg_error_masks (db : List Tag) (e : String) (ids names : List String)
    (slug name tagID queryCond : String) (limit page pageSize : Nat)
    (hasReserved : Bool) (cond pcond : Tag) :
    tagRecommendStatus (Except.error e) = false ∧
    GetTagListByIDs ids (Except.error e) db
      = GetTagListByIDs ids (Except.ok { requiredTag := false }) db ∧
    GetTagBySlugName slug (Except.error e) db
      = GetTagBySlugName slug (Except.ok { requiredTag := false }) db ∧
    GetTagListByName name limit hasReserved (Except.error e) db
      = GetTagListByName name limit hasReserved (Except.ok { requiredTag := false }) db ∧
    GetRecommendTagList (Except.error e) db
      = GetRecommendTagList (Except.ok { requiredTag := false }) db ∧
    GetReservedTagList (Except.error e) db
      = GetReservedTagList (Except.ok { requiredTag := false }) db ∧
    GetTagListByNames names (Except.error e) db
      = GetTagListByNames names (Except.ok { requiredTag := false }) db ∧
    GetTagByID tagID (Except.error e) db
      = GetTagByID tagID (Except.ok { requiredTag := false }) db ∧
    GetTagList cond (Except.error e) db
      = GetTagList cond (Except.ok { requiredTag := false }) db ∧
    GetTagPage page pageSize pcond queryCond (Except.error e) db
      = GetTagPage page pageSize pcond queryCond (Except.ok { requiredTag := false }) db ∧
    (∀ t ∈ (GetTagListByName name limit hasReserved (Except.error e) db).1,
      t.recommend = false) :=
  ⟨rfl, rfl, rfl, rfl, rfl, rfl, rfl, rfl, rfl, rfl,
   fun _ ht => recommend_of_mem_mask ht⟩

/-- C10 witness: with a failing configuration read, GetTagListByName still
answers and its row for the recommend-flagged tagGo carries recommend
false. -/
theorem cfg_error_masks_witness : tagGoMasked.recommend = false ∧ tagGoMasked.id = "t1" :=
  ⟨(cfg_error_masks dbOne "boom" ["x"] ["x"] "s" "" "t1" "name" 5 1 10 false
      {} {}).2.2.2.2.2.2.2.2.2.2 tagGoMasked (by decide), rfl⟩

/-- C6: RemoveTag removes no row and, per position, changes nothing but the
status column, which becomes deleted exactly on the rows with the given id;
afterwards the available-status reads GetTagByID and GetTagListByIDs report
the tag as absent. -/
theorem remove_tag_soft_delete (tagID : String) (cfg : SiteCfg) (db : List Tag) :
    (RemoveTag tagID db).length = db.length ∧
    (∀ (i : Nat) (t u : Tag), db[i]? = some t → (RemoveTag tagID db)[i]? = some u →
      u.id = t.id ∧ u.slugName = t.slugName ∧ u.displayName = t.displayName ∧
      u.originalText = t.originalText ∧ u.mainTagID = t.mainTagID ∧
      u.mainTagSlugName = t.mainTagSlugName ∧ u.recommend = t.recommend ∧
      u.reserved = t.reserved ∧ u.questionCount = t.questionCount ∧
      u.revisionID = t.revisionID ∧ u.createdAt = t.createdAt ∧
      u.status = if t.id = tagID then TagStatusDeleted else t.status) ∧
    (GetTagByID tagID cfg (RemoveTag tagID db)).1 = none ∧
    (GetTagListByIDs [tagID] cfg (RemoveTag tagID db)).1 = [] := by
  refine ⟨List.length_map db _, ?_, ?_, ?_⟩
  · intro i t u ht hu
    rw [RemoveTag, List.getElem?_map, ht] at hu
    obtain rfl : (if t.id = tagID then { t with status := TagStatusDeleted } else t) = u :=
      Option.some.inj hu
    by_cases h : t.id = tagID <;> simp [h]
  · have hf : List.find? (fun t => decide (t.id = tagID ∧ t.status = TagStatusAvailable))
        (RemoveTag tagID db) = none := by
      rw [List.find?_eq_none]
      intro x hx
      rcases List.mem_map.1 hx with ⟨s, _, rfl⟩
      by_cases h : s.id = tagID <;> simp [h, TagStatusAvailable, TagStatusDeleted]
    simp only [GetTagByID, hf, Option.map_none']
  · rw [List.eq_nil_iff_forall_not_mem]
    intro x hx
    rcases mem_maskRecommend.1 hx with ⟨s, hs, rfl⟩
    have hs2 := (List.mem_insertionSort _).1 hs
    have hp := (List.mem_filter.1 hs2).2
    rcases List.mem_map.1 (List.mem_filter.1 hs2).1 with ⟨w, _, rfl⟩
    by_cases h : w.id = tagID
    · simp [h, TagStatusAvailable, TagStatusDeleted] at hp
    · simp [h] at hp

/-- C6 witness: deleting tagGo makes GetTagByID report it absent, while the
row keeps its slug name and its status becomes deleted. -/
theorem remove_tag_soft_delete_witness :
    (GetTagByID "t1" cfgOff (RemoveTag "t1" dbOne)).1 = none ∧
    tagGoDel.slugName = tagGo.slugName ∧ tagGoDel.status = TagStatusDeleted := by
  refine ⟨(remove_tag_soft_delete "t1" cfgOff dbOne).2.2.1,
    ((remove_tag_soft_delete "t1" cfgOff dbOne).2.1 0 tagGo tagGoDel rfl (by decide)).2.1, ?_⟩
  have h := ((remove_tag_soft_delete "t1" cfgOff dbOne).2.1 0 tagGo tagGoDel rfl
    (by decide)).2.2.2.2.2.2.2.2.2.2.2
  simpa using h

/-- C7: UpdateTagQuestionCount removes no row and, per position, changes
nothing but the question-count column, which becomes the given value exactly
on the rows with the given id, also when that value is zero. -/
theorem update_question_count_only (tagID : String) (qc : Int) (db : List Tag) :
    (UpdateTagQuestionCount tagID qc db).length = db.length ∧
    (∀ (i : Nat) (t u : Tag), db[i]? = some t → (UpdateTagQuestionCount tagID qc db)[i]? = some u →
      u.id = t.id ∧ u.slugName = t.slugName ∧ u.displayName = t.displayName ∧
      u.originalText = t.originalText ∧ u.mainTagID = t.mainTagID ∧
      u.mainTagSlugName = t.mainTagSlugName ∧ u.recommend = t.recommend ∧
      u.reserved = t.reserved ∧ u.status = t.status ∧
      u.revisionID = t.revisionID ∧ u.createdAt = t.createdAt ∧
      u.questionCount = if t.id = tagID then qc else t.questionCount) := by
  refine ⟨List.length_map db _, ?_⟩
  intro i t u ht hu
  rw [UpdateTagQuestionCount, List.getElem?_map, ht] at hu
  obtain rfl : (if t.id = tagID then { t with questionCount := qc } else t) = u :=
    Option.some.inj hu
  by_cases h : t.id = tagID <;> simp [h]

/-- C7 witness: updating tagGo (stored question count 7) with count 0
persists question count 0 and leaves the slug name unchanged. -/
theorem update_question_count_only_witness :
    tagGoZero.questionCount = 0 ∧ tagGo.questionCount = 7 ∧
    tagGoZero.slugName = tagGo.slugName := by
  have h := (update_question_count_only "t1" 0 dbOne).2 0 tagGo tagGoZero rfl (by decide)
  refine ⟨?_, rfl, h.2.1⟩
  have h2 := h.2.2.2.2.2.2.2.2.2.2.2
  simpa using h2

/-- C9: whenever the filter bean's SlugName is non-empty on entry,
GetTagPage hands back a bean whose SlugName is the empty string, observably
different from the caller's bean. -/
theorem tag_page_mutates_filter (page pageSize : Nat) (tag : Tag) (q : String)
    (cfg : SiteCfg) (db : List Tag) (h : tag.slugName ≠ "") :
    ((GetTagPage page pageSize tag q cfg db).1.2.2).slugName = "" ∧
    (GetTagPage page pageSize tag q cfg db).1.2.2 ≠ tag := by
  have h1 : (GetTagPage page pageSize tag q cfg db).1.2.2
      = if tag.slugName = "" then tag else { tag with slugName := "" } := rfl
  rw [h1, if_neg h]
  refine ⟨rfl, ?_⟩
  intro he
  exact h (congrArg Tag.slugName he).symm

/-- C9 witness: a bean with SlugName "foo" comes back with SlugName
empty. -/
theorem tag_page_mutates_filter_witness :
    ((GetTagPage 1 20 tagFoo "popular" cfgOff dbOne).1.2.2).slugName = "" :=
  (tag_page_mutates_filter 1 20 tagFoo "popular" cfgOff dbOne (by decide)).1

theorem slug_le_of_nameLe {a b : Tag} (h : nameLe a b) : a.slugName ≤ b.slugName := by
  rcases (Prod.Lex.le_iff _ _).1 h with h1 | ⟨h1, _⟩
  · exact le_of_lt h1
  · exact le_of_eq h1

/-- C4: GetTagListByName with empty name, limit 5 and hasReserved false
returns only stored rows with recommend true, reserved false and available
status (up to the read-time recommend mask), at most 5 of them, in ascending
order of slug name; with a non-empty name every returned row's slug name has
the given name as a prefix. -/
theorem tag_list_by_name_spec (cfg : SiteCfg) (db : List Tag) :
    (∀ t ∈ (GetTagListByName "" 5 false cfg db).1,
      ∃ s ∈ db, s.recommend = true ∧ s.reserved = false ∧
        s.status = TagStatusAvailable ∧ maskTag (tagRecommendStatus cfg) s = t) ∧
    (GetTagListByName "" 5 false cfg db).1.length ≤ 5 ∧
    List.Pairwise (fun a b : Tag => a.slugName ≤ b.slugName)
      (GetTagListByName "" 5 false cfg db).1 ∧
    (∀ (name : String) (limit : Nat) (hasReserved : Bool), name ≠ "" →
      ∀ t ∈ (GetTagListByName name limit hasReserved cfg db).1,
        name.toList.isPrefixOf t.slugName.toList = true) := by
  refine ⟨?_, ?_, ?_, ?_⟩
  · intro t ht
    rcases mem_maskRecommend.1 ht with ⟨s, hs, rfl⟩
    have hs4 := List.mem_filter.1 ((List.mem_insertionSort _).1 (List.mem_of_mem_take hs))
    have hp := hs4.2
    simp only [decide_eq_true_eq] at hp
    obtain ⟨-, h2, h3, h4⟩ := hp
    exact ⟨s, hs4.1, by simpa using h2, by simpa using h3, h4, rfl⟩
  · simp only [GetTagListByName]
    rw [length_maskRecommend, List.length_take]
    exact min_le_left _ _
  · simp only [GetTagListByName, maskRecommend_eq_map, List.pairwise_map]
    exact (List.Pairwise.sublist (List.take_sublist 5 _)
      (List.sorted_insertionSort nameLe _)).imp (fun hab => by
        rw [maskTag_slugName, maskTag_slugName]
        exact slug_le_of_nameLe hab)
  · intro name limit hasReserved hname t ht
    rcases mem_maskRecommend.1 ht with ⟨s, hs, rfl⟩
    have hp := (List.mem_filter.1 ((List.mem_insertionSort _).1 (List.mem_of_mem_take hs))).2
    simp only [decide_eq_true_eq] at hp
    rw [maskTag_slugName]
    exact hp.1 hname

/-- C4 witness: on a one-row storage the empty-name listing has at most 5
rows, and the prefix search with name "g" returns the row with slug name
"git", whose slug name has "g" as a prefix. -/
theorem tag_list_by_name_spec_witness :
    (GetTagListByName "" 5 false cfgOn dbOne).1.length ≤ 5 ∧
    ("g".toList.isPrefixOf tagPlain.slugName.toList) = true :=
  ⟨(tag_list_by_name_spec cfgOn dbOne).2.1,
   (tag_list_by_name_spec cfgOn dbPlain).2.2.2 "g" 5 true (by decide) tagPlain (by decide)⟩

/-- C5: every row GetTagPage returns matches the bean's SlugName (when that
field is non-empty) as a substring of its slug name or display name, has
mainTagID zero (no synonyms), and has available status (never a soft-deleted
row). -/
theorem tag_page_filter_invariants (page pageSize : Nat) (tag : Tag) (q : String)
    (cfg : SiteCfg) (db : List Tag) :
    ∀ t ∈ (GetTagPage page pageSize tag q cfg db).1.1,
      (tag.slugName ≠ "" →
        (likeContains t.slugName tag.slugName = true ∨
         likeContains t.displayName tag.slugName = true)) ∧
      t.mainTagID = 0 ∧ t.status = TagStatusAvailable ∧ t.status ≠ TagStatusDeleted := by
  intro t ht
  rcases mem_maskRecommend.1 ht with ⟨s, hs, rfl⟩
  have hs2 := mem_sortTagPage.1 (mem_of_mem_page hs)
  have hp := (List.mem_filter.1 hs2).2
  simp only [Bool.and_eq_true, Bool.or_eq_true, decide_eq_true_eq, beq_iff_eq] at hp
  obtain ⟨⟨⟨hlike, hstat⟩, hmain⟩, -⟩ := hp
  refine ⟨?_, ?_, ?_, ?_⟩
  · intro hne
    rw [maskTag_slugName, maskTag_displayName]
    rcases hlike with h | h
    · exact absurd h hne
    · exact h
  · rw [maskTag_mainTagID]
    exact hmain
  · rw [maskTag_status]
    exact hstat
  · rw [maskTag_status, hstat]
    decide

/-- C5 witness: the row with slug name "foolish" returned for the bean with
SlugName "foo" matches "foo" as a substring of one of its names. -/
theorem tag_page_filter_invariants_witness :
    likeContains tagFoonly.slugName tagFoo.slugName = true ∨
    likeContains tagFoonly.displayName tagFoo.slugName = true :=
  (tag_page_filter_invariants 1 20 tagFoo "x" cfgOff dbFoo tagFoonly (by decide)).1
    (by decide)

/-- C8 amended: GetRecommendTagList and GetReservedTagList return every tag
flagged recommend (respectively reserved) whatever its status, so a
soft-deleted flagged tag is included; the listings GetTagListByIDs,
GetTagListByName, GetTagList and GetTagPage return only available rows, but
GetTagListByNames likewise omits the status restriction. -/
theorem recommend_reserved_lists_ignore_status (cfg : SiteCfg) (db : List Tag)
    (ids : List String) (name q : String) (limit page pageSize : Nat)
    (hasReserved : Bool) (cond pcond : Tag) :
    (∀ t ∈ db, t.recommend = true →
      ∃ u ∈ (GetRecommendTagList cfg db).1,
        u.id = t.id ∧ u.slugName = t.slugName ∧ u.status = t.status) ∧
    (∀ u ∈ (GetRecommendTagList cfg db).1,
      ∃ s ∈ db, s.recommend = true ∧ maskTag (tagRecommendStatus cfg) s = u) ∧
    (∀ t ∈ db, t.reserved = true →
      ∃ u ∈ (GetReservedTagList cfg db).1,
        u.id = t.id ∧ u.slugName = t.slugName ∧ u.status = t.status) ∧
    (∀ u ∈ (GetReservedTagList cfg db).1,
      ∃ s ∈ db, s.reserved = true ∧ maskTag (tagRecommendStatus cfg) s = u) ∧
    (∀ u ∈ (GetTagListByIDs ids cfg db).1, u.status = TagStatusAvailable) ∧
    (∀ u ∈ (GetTagListByName name limit hasReserved cfg db).1,
      u.status = TagStatusAvailable) ∧
    (∀ u ∈ (GetTagList cond cfg db).1, u.status = TagStatusAvailable) ∧
    (∀ u ∈ (GetTagPage page pageSize pcond q cfg db).1.1,
      u.status = TagStatusAvailable) := by
  refine ⟨?_, ?_, ?_, ?_, ?_, ?_, ?_, ?_⟩
  · intro t ht hrec
    exact ⟨maskTag (tagRecommendStatus cfg) t,
      mem_maskRecommend.2 ⟨t, (List.mem_insertionSort _).2 (List.mem_filter.2 ⟨ht, hrec⟩), rfl⟩,
      maskTag_id _ _, maskTag_slugName _ _, maskTag_status _ _⟩
  · intro u hu
    rcases mem_maskRecommend.1 hu with ⟨s, hs, rfl⟩
    have h := List.mem_filter.1 ((List.mem_insertionSort _).1 hs)
    exact ⟨s, h.1, h.2, rfl⟩
  · intro t ht hres
    exact ⟨maskTag (tagRecommendStatus cfg) t,
      mem_maskRecommend.2 ⟨t, (List.mem_insertionSort _).2 (List.mem_filter.2 ⟨ht, hres⟩), rfl⟩,
      maskTag_id _ _, maskTag_slugName _ _, maskTag_status _ _⟩
  · intro u hu
    rcases mem_maskRecommend.1 hu with ⟨s, hs, rfl⟩
    have h := List.mem_filter.1 ((List.mem_insertionSort _).1 hs)
    exact ⟨s, h.1, h.2, rfl⟩
  · intro u hu
    rcases mem_maskRecommend.1 hu with ⟨s, hs, rfl⟩
    have hp := (List.mem_filter.1 ((List.mem_insertionSort _).1 hs)).2
    simp only [decide_eq_true_eq] at hp
    rw [maskTag_status]
    exact hp.2
  · intro u hu
    rcases mem_maskRecommend.1 hu with ⟨s, hs, rfl⟩
    have hp := (List.mem_filter.1 ((List.mem_insertionSort _).1 (List.mem_of_mem_take hs))).2
    simp only [decide_eq_true_eq] at hp
    rw [maskTag_status]
    exact hp.2.2.2
  · intro u hu
    rcases mem_maskRecommend.1 hu with ⟨s, hs, rfl⟩
    have hp := (List.mem_filter.1 hs).2
    simp only [Bool.and_eq_true, decide_eq_true_eq] at hp
    rw [maskTag_status]
    exact hp.1
  · intro u hu
    rcases mem_maskRecommend.1 hu with ⟨s, hs, rfl⟩
    have hp := (List.mem_filter.1 (mem_sortTagPage.1 (mem_of_mem_page hs))).2
    simp only [Bool.and_eq_true, decide_eq_true_eq] at hp
    rw [maskTag_status]
    exact hp.1.1.2

/-- C8 counterexample: GetTagListByNames, a tag-returning listing other than
the two flag listings, also returns a soft-deleted row, so those two are not
unlike every other listing operation of the repository. -/
theorem listing_status_filter_cex :
    delTag.status = TagStatusDeleted ∧
    (GetTagListByNames ["golang"] cfgOn [delTag]).1 = [delTag] :=
  ⟨rfl, by decide⟩

/-- C8 witness: the soft-deleted recommend-flagged tag delTag appears in the
result of GetRecommendTagList with its deleted status intact. -/
theorem recommend_reserved_lists_ignore_status_witness :
    ∃ u ∈ (GetRecommendTagList cfgOn [delTag]).1,
      u.id = delTag.id ∧ u.slugName = delTag.slugName ∧ u.status = delTag.status :=
  (recommend_reserved_lists_ignore_status cfgOn [delTag] [] "" "" 0 0 0 false {} {}).1
    delTag (by decide) rfl

/-- C3: the label mapping is total: voted_up, voted_down and accepted are
hidden and their timeline entries are dropped entirely; vote_up becomes
upvote and vote_down becomes downvote; every other label passes through
verbatim and its entry is retained with that label. -/
theorem activity_label_mapping :
    (∀ s, s = "voted_up" ∨ s = "voted_down" ∨ s = "accepted" →
      formatActivity s = (true, "")) ∧
    formatActivity "vote_up" = (false, "upvote") ∧
    formatActivity "vote_down" = (false, "downvote") ∧
    (∀ s, s ≠ "voted_up" → s ≠ "voted_down" → s ≠ "accepted" → s ≠ "vote_up" →
      s ≠ "vote_down" → formatActivity s = (false, s)) ∧
    (∀ env act rest,
      (formatActivity (cutDot (env.id2key act.activityType)).2).1 = true →
      buildTimeline env (act :: rest) = buildTimeline env rest) ∧
    (∀ env act rest r,
      (formatActivity (cutDot (env.id2key act.activityType)).2).1 = false →
      env.getUserBasicInfoByID act.userID = Except.ok r →
      buildTimeline env (act :: rest) =
        (buildTimeline env rest).map (fun tl => mkTimelineItem env act r :: tl) ∧
      (mkTimelineItem env act r).activityType =
        (formatActivity (cutDot (env.id2key act.activityType)).2).2) := by
  refine ⟨?_, by decide, by decide, ?_, ?_, ?_⟩
  · intro s h
    rcases h with rfl | rfl | rfl <;> decide
  · intro s h1 h2 h3 h4 h5
    simp [formatActivity, h1, h2, h3, h4, h5]
  · intro env act rest h
    simp [buildTimeline, h]
  · intro env act rest r h hok
    refine ⟨?_, rfl⟩
    simp only [buildTimeline, h, Bool.false_eq_true, if_false, hok]
    cases hb : buildTimeline env rest <;> simp [Except.map]

/-- C3 witness: a label outside the special set passes through verbatim and
is not hidden. -/
theorem activity_label_mapping_witness : formatActivity "edited" = (false, "edited") :=
  activity_label_mapping.2.2.2.1 "edited" (by decide) (by decide) (by decide)
    (by decide) (by decide)

theorem buildTimeline_ok (env : ActivityEnv) (acts : List Activity)
    (h : ∀ a ∈ acts, ∃ r, env.getUserBasicInfoByID a.userID = Except.ok r) :
    ∃ tl, buildTimeline env acts = Except.ok tl := by
  induction acts with
  | nil => exact ⟨[], rfl⟩
  | cons a rest ih =>
    obtain ⟨tl, htl⟩ := ih (fun b hb => h b (List.mem_cons_of_mem _ hb))
    obtain ⟨r, hr⟩ := h a (List.mem_cons_self _ _)
    by_cases hc : (formatActivity (cutDot (env.id2key a.activityType)).2).1 = true
    · exact ⟨tl, by simp [buildTimeline, hc, htl]⟩
    · exact ⟨mkTimelineItem env a r :: tl, by simp [buildTimeline, hc, hr, htl]⟩

/-- C1 counterexample: with the object load and the activity load both
succeeding, a storage error of the user lookup — a downstream enrichment
step, not a load of the object or revision identity — aborts
GetObjectTimeline with that error. -/
theorem timeline_user_error_aborts :
    cexEnv.getInfo "q1" = Except.ok infoQ ∧
    cexEnv.getObjectAllActivity "q1" true = Except.ok [actEdit] ∧
    GetObjectTimeline cexEnv "q1" true = Except.error "user lookup storage error" :=
  ⟨rfl, rfl, rfl⟩

/-- C1 amended: in GetObjectTimeline an object-load failure propagates, any
error of the timeline loop propagates, and in particular a user-lookup
storage error on any non-hidden activity aborts the loop with that error;
when the object, the activity list and every user lookup resolve, the call
succeeds whatever the comment lookups return, and a user that does not exist
leaves the name fields empty.  In getOneObjectDetail a revision-load failure
propagates, an object-info failure after it propagates, and once both loads
succeed the call succeeds whatever the decoders return and for unknown
object types; GetObjectTimelineDetail propagates a failure of either
snapshot. -/
theorem timeline_error_policy :
    (∀ env oid sv e, env.getInfo oid = Except.error e →
      GetObjectTimeline env oid sv = Except.error e) ∧
    (∀ env oid sv info acts e,
      env.getInfo oid = Except.ok info →
      env.getObjectAllActivity oid sv = Except.ok acts →
      buildTimeline env acts = Except.error e →
      GetObjectTimeline env oid sv = Except.error e) ∧
    (∀ env act rest e,
      (formatActivity (cutDot (env.id2key act.activityType)).2).1 = false →
      env.getUserBasicInfoByID act.userID = Except.error e →
      buildTimeline env (act :: rest) = Except.error e) ∧
    (∀ env oid sv info acts,
      env.getInfo oid = Except.ok info →
      env.getObjectAllActivity oid sv = Except.ok acts →
      (∀ a ∈ acts, ∃ r, env.getUserBasicInfoByID a.userID = Except.ok r) →
      ∃ resp, GetObjectTimeline env oid sv = Except.ok resp) ∧
    (∀ env act r, r.1 = false →
      (mkTimelineItem env act r).username = "" ∧
      (mkTimelineItem env act r).userDisplayName = "") ∧
    (∀ env rid e, env.getRevision rid = Except.error e →
      getOneObjectDetail env rid = Except.error e) ∧
    (∀ env rid rev e,
      env.getRevision rid = Except.ok rev →
      env.getInfo rev.objectID = Except.error e →
      getOneObjectDetail env rid = Except.error e) ∧
    (∀ env rid rev info,
      env.getRevision rid = Except.ok rev →
      env.getInfo rev.objectID = Except.ok info →
      ∃ d, getOneObjectDetail env rid = Except.ok d) ∧
    (∀ env oldID newID e, getOneObjectDetail env oldID = Except.error e →
      GetObjectTimelineDetail env oldID newID = Except.error e) ∧
    (∀ env oldID newID o e,
      getOneObjectDetail env oldID = Except.ok o →
      getOneObjectDetail env newID = Except.error e →
      GetObjectTimelineDetail env oldID newID = Except.error e) := by
  refine ⟨?_, ?_, ?_, ?_, ?_, ?_, ?_, ?_, ?_, ?_⟩
  · intro env oid sv e h
    simp [GetObjectTimeline, h]
  · intro env oid sv info acts e h1 h2 h3
    simp [GetObjectTimeline, h1, h2, h3]
  · intro env act rest e h hb
    simp [buildTimeline, h, hb]
  · intro env oid sv info acts h1 h2 husers
    obtain ⟨tl, htl⟩ := buildTimeline_ok env acts husers
    refine ⟨⟨⟨info.title, info.objectType, info.questionID, info.answerID⟩, tl⟩, ?_⟩
    simp [GetObjectTimeline, h1, h2, htl]
  · intro env act r hr
    simp [mkTimelineItem, hr]
  · intro env rid e h
    simp [getOneObjectDetail, h]
  · intro env rid rev e h1 h2
    simp [getOneObjectDetail, h1, h2]
  · intro env rid rev info h1 h2
    simp only [getOneObjectDetail, h1, h2]
    split
    · split
      · exact ⟨_, rfl⟩
      · exact ⟨_, rfl⟩
    · split
      · split
        · exact ⟨_, rfl⟩
        · exact ⟨_, rfl⟩
      · split
        · split
          · exact ⟨_, rfl⟩
          · exact ⟨_, rfl⟩
        · exact ⟨_, rfl⟩
  · intro env oldID newID e h
    simp [GetObjectTimelineDetail, h]
  · intro env oldID newID o e h1 h2
    simp [GetObjectTimelineDetail, h1, h2]

/-- C1 witness: in an environment where the identity loads and the user
lookup succeed (with a non-existing user) while the comment lookup and every
content decoder fail, both calls succeed; in the environment whose user
lookup and revision load fail, the loop, the timeline call and the detail
calls all abort with the respective error. -/
theorem timeline_error_policy_witness :
    (∃ resp, GetObjectTimeline okEnv "q1" true = Except.ok resp) ∧
    (∃ d, getOneObjectDetail okEnv "r1" = Except.ok d) ∧
    buildTimeline cexEnv [actEdit] = Except.error "user lookup storage error" ∧
    GetObjectTimeline cexEnv "q1" true = Except.error "user lookup storage error" ∧
    getOneObjectDetail cexEnv "r1" = Except.error "revision missing" ∧
    GetObjectTimelineDetail cexEnv "r1" "r2" = Except.error "revision missing" :=
  ⟨timeline_error_policy.2.2.2.1 okEnv "q1" true infoQ [actEdit] rfl rfl
      (fun _ _ => ⟨ubiAnon, rfl⟩),
   timeline_error_policy.2.2.2.2.2.2.2.1 okEnv "r1" revQ infoQ rfl rfl,
   timeline_error_policy.2.2.1 cexEnv actEdit [] "user lookup storage error" rfl rfl,
   timeline_error_policy.2.1 cexEnv "q1" true infoQ [actEdit]
     "user lookup storage error" rfl rfl rfl,
   timeline_error_policy.2.2.2.2.2.1 cexEnv "r1" "revision missing" rfl,
   timeline_error_policy.2.2.2.2.2.2.2.2.1 cexEnv "r1" "r2" "revision missing" rfl⟩

end Answer
